import Mathlib

/-!
Verification of the Excel Analysis Platform repository against its
natural-language specification.

The repository ships the React/TypeScript frontend (file list, query
history, upload, API client, type declarations) under
`src/frontend` and `src/unnamed/part_000..003`.  The backend analysis
engine (cleaning pipeline, schema profiler, query compiler, executor,
chart selector, storage layer) is not part of the shipped sources, so
those components are modelled from the specification; every such
definition carries a doc comment starting with "Modelled from the spec:".
All other definitions are shallow embeddings of the TypeScript source.
-/

namespace ExcelPlatform

/-! ## Value model

The spec's design note asks for dynamic row values to be represented as a
schema-aware tagged union of value kinds (integer, float, string, boolean,
datetime, null).  JSON-like values carried in `any`-typed TypeScript
fields are modelled by `JsonVal`. -/

/-- Modelled from the spec: tagged union of cell value kinds
{integer, float, string, boolean, datetime, null} used for cleaned grid
cells (floats as rationals, datetimes as timestamps). -/
inductive Cell where
  | null
  | int (i : Int)
  | flt (q : Rat)
  | str (s : String)
  | bool (b : Bool)
  | datetime (t : Nat)
deriving DecidableEq, Repr

/-- A JSON-like dynamic value, embedding the TypeScript `any` payloads
(`data: any[]`, `Record<string, any>`). -/
inductive JsonVal where
  | null
  | bool (b : Bool)
  | num (q : Rat)
  | str (s : String)
  | arr (elems : List JsonVal)
  | obj (fields : List (String × JsonVal))

/-! ## Frontend data shapes (src/frontend/src/types.ts) -/

/-- The `DataResult` interface of `src/frontend/src/types.ts`:
`data: any[]`, `columns: string[]`, `row_count: number`,
`query_type: string`, `chart_type?: string`, `message?: string`,
`aggregations?: Record<string, any>`. -/
structure DataResult where
  data : List JsonVal
  columns : List String
  row_count : Nat
  query_type : String
  chart_type : Option String
  message : Option String
  aggregations : Option (List (String × JsonVal))

/-- Field names of the `DataResult` interface in
`src/frontend/src/types.ts`, in declaration order. -/
def dataResultFields : List String :=
  ["data", "columns", "row_count", "query_type", "chart_type", "message",
   "aggregations"]

/-- Field names section 3 of the spec lists for `DataResult`:
`rows`, `columns`, `row_count`, `query_type`, optional `chart_type`,
optional `aggregations`. -/
def specDataResultFields : List String :=
  ["rows", "columns", "row_count", "query_type", "chart_type",
   "aggregations"]

/-- The `QueryResponse` interface of `src/frontend/src/types.ts`. -/
structure QueryResponse where
  id : Nat
  question : String
  response : Option String
  query_type : Option String
  data_result : Option DataResult
  chart_type : Option String
  chart_config : Option (List (String × JsonVal))
  status : String
  created_at : String

/-- The `FileInfo` interface of `src/frontend/src/types.ts`. -/
structure FileInfo where
  id : Nat
  filename : String
  file_size : Nat
  file_type : String
  is_processed : Bool
  processing_status : String
  created_at : String
  sheets_count : Nat

/-! ## Schema Profiler (modelled from the spec, section 4.2) -/

/-- Modelled from the spec: the six inferred column types of a
`ColumnProfile`. -/
inductive InferredType where
  | integer
  | float
  | string
  | boolean
  | datetime
  | categorical
deriving DecidableEq, Repr

def Cell.isNull : Cell → Bool
  | .null => true
  | _ => false

def Cell.isBool : Cell → Bool
  | .bool _ => true
  | _ => false

def Cell.isInt : Cell → Bool
  | .int _ => true
  | _ => false

def Cell.isNum : Cell → Bool
  | .int _ => true
  | .flt _ => true
  | _ => false

def Cell.isDatetime : Cell → Bool
  | .datetime _ => true
  | _ => false

/-- Numeric view of a cell (integers, floats and datetimes carry a
number; strings, booleans and nulls do not). -/
def cellNum : Cell → Option Rat
  | .int i => some (i : Rat)
  | .flt q => some q
  | .datetime t => some (t : Rat)
  | _ => none

/-- Modelled from the spec: type inference order per column — boolean
(two-valued boolean tokens) → integer (all non-null values are integers)
→ float (all non-null values numeric) → datetime (majority of non-null
values are dates) → categorical (at most 20 distinct values or at most
5 percent of rows) → string (default). -/
def inferType (cells : List Cell) : InferredType :=
  let nn := cells.filter (fun c => !c.isNull)
  if nn ≠ [] ∧ nn.all Cell.isBool then .boolean
  else if nn ≠ [] ∧ nn.all Cell.isInt then .integer
  else if nn ≠ [] ∧ nn.all Cell.isNum then .float
  else if nn ≠ [] ∧ nn.length < 2 * nn.countP Cell.isDatetime then .datetime
  else if nn.dedup.length ≤ 20 ∨ 20 * nn.dedup.length ≤ cells.length then
    .categorical
  else .string

/-- Whether statistics are kept for this type: numeric (integer, float)
or datetime. -/
def hasStats : InferredType → Bool
  | .integer => true
  | .float => true
  | .datetime => true
  | _ => false

/-- Smallest element of a list of rationals (0 for the empty list). -/
def listMinD : List Rat → Rat
  | [] => 0
  | q :: qs => qs.foldl min q

/-- Largest element of a list of rationals (0 for the empty list). -/
def listMaxD : List Rat → Rat
  | [] => 0
  | q :: qs => qs.foldl max q

/-- Arithmetic mean of a list of rationals (0 for the empty list, since
rational division by zero is zero). -/
def listMean (qs : List Rat) : Rat :=
  (qs.foldl (· + ·) 0) / (qs.length : Rat)

/-- Modelled from the spec: per-column profile — deduplicated `name`,
one `inferred_type`, `null_count`, `non_null_count`, `unique_count`,
bounded `sample_values`, and `min`/`max`/`mean` for numeric and datetime
types only. -/
structure ColumnProfile where
  name : String
  inferred_type : InferredType
  null_count : Nat
  non_null_count : Nat
  unique_count : Nat
  sample_values : List Cell
  min : Option Rat
  max : Option Rat
  mean : Option Rat

/-- Modelled from the spec: the Schema Profiler's per-column work —
count nulls and non-nulls, count distinct non-null values, keep a small
sample, infer the single type, and compute `min`/`max`/`mean` exactly
for numeric and datetime columns, `none` otherwise. -/
def profileColumn (name : String) (cells : List Cell) : ColumnProfile :=
  let nn := cells.filter (fun c => !c.isNull)
  let t := inferType cells
  let vals := nn.filterMap cellNum
  { name := name
    inferred_type := t
    null_count := cells.countP Cell.isNull
    non_null_count := nn.length
    unique_count := nn.dedup.length
    sample_values := nn.take 5
    min := if hasStats t then some (listMinD vals) else none
    max := if hasStats t then some (listMaxD vals) else none
    mean := if hasStats t then some (listMean vals) else none }

/-! ## Dataset (modelled from the spec, section 3) -/

/-- Modelled from the spec: canonical typed tabular representation of one
cleaned sheet — `id`, `sheet_name`, ordered column profiles, row count,
owning file reference. -/
structure Dataset where
  id : Nat
  sheet_name : String
  columns : List ColumnProfile
  row_count : Nat
  file_id : Nat

/-- Look a column profile up by name. -/
def Dataset.findColumn (d : Dataset) (name : String) : Option ColumnProfile :=
  d.columns.find? (fun c => c.name == name)

/-! ## Query intents and plans (modelled from the spec, sections 3, 4.4) -/

/-- Modelled from the spec: the aggregate functions a question can imply. -/
inductive AggFn where
  | sum
  | avg
  | count
  | minOf
  | maxOf
deriving DecidableEq, Repr

/-- Modelled from the spec: trend granularity day/month/quarter/year. -/
inductive Granularity where
  | day
  | month
  | quarter
  | year
deriving DecidableEq, Repr

/-- Modelled from the spec: one filter predicate — a target column and a
comparison value (the operator is kept as text). -/
structure Predicate where
  column : String
  op : String
  value : Cell
deriving DecidableEq, Repr

/-- Modelled from the spec: tagged variant over the six intent kinds,
each carrying its intent-specific fields (Ranking carries direction and
limit, Trend a time column and granularity, Filter a predicate list). -/
inductive QueryIntent where
  | aggregation (targets : List String) (fn : AggFn)
  | comparison (groupCol numCol : String)
  | filtering (preds : List Predicate)
  | trend (timeCol numCol : String) (granularity : Option Granularity)
  | distribution (col : String)
  | ranking (groupCol numCol : String) (top : Bool) (limit : Option Nat)
deriving DecidableEq, Repr

/-- Modelled from the spec: one relational operation of a `QueryPlan` —
select columns, filter predicates, group-by plus aggregate, sort, limit. -/
inductive PlanOp where
  | selectCols (cols : List String)
  | filterRows (preds : List Predicate)
  | groupAgg (key : Option String) (fn : AggFn) (target : String)
  | sortBy (col : String) (descending : Bool)
  | limitTo (n : Nat)
deriving DecidableEq, Repr

/-- Modelled from the spec: an ordered sequence of relational operations. -/
def QueryPlan := List PlanOp
deriving DecidableEq

/-- Modelled from the spec: a compilation error naming the unsatisfiable
requirement. -/
inductive CompilationError where
  | badRequirement (msg : String)
deriving DecidableEq, Repr

/-- Raw-file state as the inbound file collaborator sees it: a 2-D cell
grid of unparsed text.  `QueryPlan`s must never depend on it. -/
def RawGrid := List (List String)

def isNumericType : InferredType → Bool
  | .integer => true
  | .float => true
  | _ => false

def isGroupableType : InferredType → Bool
  | .categorical => true
  | .string => true
  | _ => false

/-- Whether a predicate's comparison value is compatible with the target
column's inferred type: a string value against a numeric column is
rejected, not coerced. -/
def typeCompatible (v : Cell) (t : InferredType) : Bool :=
  match v with
  | .null => true
  | .str _ => !isNumericType t
  | .int _ => isNumericType t
  | .flt _ => isNumericType t
  | .bool _ => decide (t = .boolean)
  | .datetime _ => decide (t = .datetime)

/-- Modelled from the spec: the Query Compiler —
`QueryIntent` + `Dataset` → `QueryPlan` or a `CompilationError`.
Aggregation needs a numeric target; Comparison/Ranking need one
groupable column and one numeric column, Ranking defaulting its limit
to 10; Trend needs a datetime column and a numeric column; Filter
validates every predicate against the target column's inferred type;
Distribution needs one categorical/string column.  The raw grid argument
records that compilation may only read the `Dataset`, never raw-file
state. -/
def compile (i : QueryIntent) (d : Dataset) (_raw : RawGrid) :
    Except CompilationError QueryPlan :=
  match i with
  | .aggregation targets fn =>
    match targets with
    | [] => .error (.badRequirement "aggregation requires a target column")
    | t :: _ =>
      match d.findColumn t with
      | none => .error (.badRequirement ("unknown column " ++ t))
      | some c =>
        if isNumericType c.inferred_type then
          .ok [.selectCols targets, .groupAgg none fn t]
        else
          .error (.badRequirement ("aggregate over non-numeric column " ++ t))
  | .comparison g n =>
    match d.findColumn g, d.findColumn n with
    | some gc, some nc =>
      if isGroupableType gc.inferred_type ∧ isNumericType nc.inferred_type then
        .ok [.selectCols [g, n], .groupAgg (some g) .sum n, .sortBy n true]
      else
        .error (.badRequirement "comparison needs a grouping and a numeric column")
    | _, _ => .error (.badRequirement "comparison references an unknown column")
  | .filtering preds =>
    if preds.all (fun p =>
        match d.findColumn p.column with
        | some c => typeCompatible p.value c.inferred_type
        | none => false) then
      .ok [.selectCols (d.columns.map (fun c => c.name)), .filterRows preds]
    else
      .error (.badRequirement "filter predicate incompatible with column type")
  | .trend tc nc gran =>
    match d.findColumn tc, d.findColumn nc with
    | some tcp, some ncp =>
      if tcp.inferred_type = .datetime ∧ isNumericType ncp.inferred_type then
        let _g := gran.getD .month
        .ok [.selectCols [tc, nc], .groupAgg (some tc) .sum nc, .sortBy tc false]
      else
        .error (.badRequirement "trend needs a datetime and a numeric column")
    | _, _ => .error (.badRequirement "trend references an unknown column")
  | .distribution c =>
    match d.findColumn c with
    | none => .error (.badRequirement ("unknown column " ++ c))
    | some cp =>
      if isGroupableType cp.inferred_type then
        .ok [.selectCols [c], .groupAgg (some c) .count c]
      else
        .error (.badRequirement "distribution needs a categorical or string column")
  | .ranking g n top lim =>
    match d.findColumn g, d.findColumn n with
    | some gc, some nc =>
      if isGroupableType gc.inferred_type ∧ isNumericType nc.inferred_type then
        .ok [.selectCols [g, n], .groupAgg (some g) .sum n, .sortBy n top,
             .limitTo (lim.getD 10)]
      else
        .error (.badRequirement "ranking needs a grouping and a numeric column")
    | _, _ => .error (.badRequirement "ranking references an unknown column")

/-! ## Chart Selector (modelled from the spec, section 4.6) -/

/-- Modelled from the spec: the four chart types. -/
inductive ChartType where
  | bar
  | line
  | pie
  | table
deriving DecidableEq, Repr

/-- Modelled from the spec: deterministic mapping from
(intent kind, result row count, numeric result column count) —
Trend → line; Ranking/Comparison → bar; Distribution → pie; zero
numeric columns, more rows than the display threshold of 20, or any
remaining combination → table as the safe default. -/
def selectChart (i : QueryIntent) (rowCount numericCols : Nat) : ChartType :=
  if numericCols = 0 then .table
  else
    match i with
    | .trend _ _ _ => .line
    | .ranking _ _ _ _ => if rowCount > 20 then .table else .bar
    | .comparison _ _ => if rowCount > 20 then .table else .bar
    | .distribution _ => if rowCount > 20 then .table else .pie
    | .aggregation _ _ => .table
    | .filtering _ => .table

/-! ## Query lifecycle (modelled from the spec, sections 3, 7) -/

/-- Modelled from the spec: the persisted `Query` record — question,
resolved intent, plan, result, `status`, timestamp. -/
structure Query where
  id : Nat
  file_id : Nat
  question : String
  intent : Option QueryIntent
  plan : Option QueryPlan
  result : Option DataResult
  status : String
  created_at : Nat

/-- Modelled from the spec: a freshly issued query is persisted with
status `pending`. -/
def createQuery (id fid : Nat) (question : String) (t : Nat) : Query :=
  { id := id, file_id := fid, question := question, intent := none,
    plan := none, result := none, status := "pending", created_at := t }

/-- Modelled from the spec: the events a persisted query can undergo —
successful completion (intent, plan and result recorded, status
`completed`) or failure (status `failed`). -/
inductive QueryEvent where
  | complete (i : QueryIntent) (p : QueryPlan) (r : DataResult)
  | fail

/-- Modelled from the spec: apply one lifecycle event to a query record. -/
def applyEvent (q : Query) : QueryEvent → Query
  | .complete i p r =>
    { q with intent := some i, plan := some p, result := some r,
             status := "completed" }
  | .fail => { q with status := "failed" }

/-! ## Storage collaborator (modelled from the spec, section 6) -/

/-- Modelled from the spec: one stored file row. -/
structure FileRec where
  id : Nat
  filename : String

/-- Modelled from the spec: one stored dataset row, keyed to its owning
file. -/
structure DatasetRec where
  id : Nat
  file_id : Nat
  sheet_name : String

/-- Modelled from the spec: the storage collaborator's state — files,
datasets and queries keyed by file identity. -/
structure Store where
  files : List FileRec
  datasets : List DatasetRec
  queries : List Query

/-- Modelled from the spec: foreign-key-consistent cascade delete —
deleting a File deletes its Datasets and Queries. -/
def deleteFile (fid : Nat) (s : Store) : Store :=
  { files := s.files.filter (fun f => f.id ≠ fid)
    datasets := s.datasets.filter (fun d => d.file_id ≠ fid)
    queries := s.queries.filter (fun q => q.file_id ≠ fid) }

/-! ## Frontend helpers (embedded from the TypeScript source) -/

/-- `truncateText` of `src/frontend/src/components/QueryHistory.tsx`,
strings as character lists: text unchanged when its length is at most
`maxLength` (default 100), otherwise the first `maxLength` characters
followed by "...". -/
def truncateText (text : List Char) (maxLength : Nat := 100) : List Char :=
  if text.length ≤ maxLength then text
  else text.take maxLength ++ ['.', '.', '.']

/-- The unit array of `formatFileSize` in `src/unnamed/part_002`
(FileList). -/
def sizes : List String := ["Bytes", "KB", "MB", "GB"]

/-- `formatFileSize` of `src/unnamed/part_002` (FileList): "0 Bytes" for
zero, otherwise the value scaled by 1024^i with the unit at index
i = floor(log bytes / log 1024); the base-1024 logarithm floor is
embedded exactly as `Nat.log 1024`, and the fractional display rounding
(`toFixed(2)`) as natural division. -/
def formatFileSize (bytes : Nat) : String :=
  if bytes = 0 then "0 Bytes"
  else
    let i := Nat.log 1024 bytes
    toString (bytes / 1024 ^ i) ++ " " ++ sizes.getD i ""

/-- `handleDeleteConfirm` of `src/frontend/src/components/QueryHistory.tsx`
as a pure state transition on the displayed list: nothing happens without
a selected query; on a successful delete request the list is filtered by
id; on a failed request the list is unchanged. -/
def handleDeleteConfirmQueries (success : Bool) (queries : List QueryResponse)
    (queryToDelete : Option QueryResponse) : List QueryResponse :=
  match queryToDelete with
  | none => queries
  | some qd =>
    if success then queries.filter (fun q => q.id ≠ qd.id) else queries

/-- `handleDeleteConfirm` of `src/unnamed/part_002` (FileList) as a pure
state transition on the displayed file list. -/
def handleDeleteConfirmFiles (success : Bool) (files : List FileInfo)
    (fileToDelete : Option FileInfo) : List FileInfo :=
  match fileToDelete with
  | none => files
  | some fd =>
    if success then files.filter (fun f => f.id ≠ fd.id) else files

/-! ## Helper lemmas -/

lemma count_null_add_nonnull (cells : List Cell) :
    cells.countP Cell.isNull + (cells.filter (fun c => !c.isNull)).length =
      cells.length := by
  induction cells with
  | nil => rfl
  | cons c cs ih =>
    cases hc : c.isNull <;>
      simp [List.countP_cons, List.filter_cons, hc, ← ih] <;> omega

lemma getD_mem_of_lt {α : Type} (l : List α) (j : Nat) (d : α)
    (h : j < l.length) : l.getD j d ∈ l := by
  induction l generalizing j with
  | nil => simp at h
  | cons a t ih =>
    cases j with
    | zero => simp [List.getD]
    | succ n =>
      have h' : t.getD n d ∈ t :=
        ih n (Nat.lt_of_succ_lt_succ (by simpa using h))
      rw [List.getD_cons_succ]
      exact List.mem_cons_of_mem a h'

lemma foldl_status_mem (events : List QueryEvent) :
    ∀ q : Query, q.status ∈ (["pending", "completed", "failed"] : List String) →
      (events.foldl applyEvent q).status ∈
        (["pending", "completed", "failed"] : List String) := by
  induction events with
  | nil => intro q h; exact h
  | cons e es ih =>
    intro q h
    refine ih (applyEvent q e) ?_
    cases e <;> simp [applyEvent]

/-! ## Claim theorems -/

/-- Claim C1, counterexample: the claim that the `DataResult` returned to
the presentation layer has exactly the spec's fields — in particular a
field named `rows` — is false for the `DataResult` interface the
presentation layer declares in `src/frontend/src/types.ts`: no field is
named `rows` (the record sequence lives in `data`), there is an extra
optional `message` field, and the two field lists differ. -/
theorem dataResult_rows_field_missing :
    "rows" ∉ dataResultFields ∧ "rows" ∈ specDataResultFields ∧
    "message" ∈ dataResultFields ∧ "message" ∉ specDataResultFields ∧
    dataResultFields ≠ specDataResultFields := by decide

/-- Claim C1, amended: the `DataResult` shape consumed by the
presentation layer has exactly the spec's fields with the record
sequence field named `data` instead of `rows`, plus one extra optional
`message` field. -/
theorem dataResult_shape_amended :
    List.Perm
      ((specDataResultFields.map fun s => if s = "rows" then "data" else s)
        ++ ["message"])
      dataResultFields := by decide

/-- Claim C2: every persisted `Query` record, at every point of its
lifecycle (creation followed by any sequence of completion/failure
events), has a status among exactly pending, completed, failed. -/
theorem query_status_invariant (id fid : Nat) (question : String) (t : Nat)
    (events : List QueryEvent) :
    (events.foldl applyEvent (createQuery id fid question t)).status ∈
      (["pending", "completed", "failed"] : List String) := by
  refine foldl_status_mem events _ ?_
  simp [createQuery]

/-- Claim C3: for every column of a cleaned grid the Schema Profiler
yields exactly one `inferred_type`, and the profile satisfies
`null_count + non_null_count = row_count` and
`unique_count ≤ row_count`. -/
theorem profile_invariants (name : String) (cells : List Cell) :
    (profileColumn name cells).null_count +
        (profileColumn name cells).non_null_count = cells.length ∧
    (profileColumn name cells).unique_count ≤ cells.length ∧
    ∃! t : InferredType, (profileColumn name cells).inferred_type = t := by
  refine ⟨?_, ?_, ?_⟩
  · simpa [profileColumn] using count_null_add_nonnull cells
  · have h1 : (cells.filter (fun c => !c.isNull)).dedup.length ≤
        (cells.filter (fun c => !c.isNull)).length :=
      (List.dedup_sublist _).length_le
    have h2 : (cells.filter (fun c => !c.isNull)).length ≤ cells.length :=
      List.length_filter_le _ _
    simpa [profileColumn] using le_trans h1 h2
  · exact ⟨(profileColumn name cells).inferred_type, rfl, fun t ht => ht.symm⟩

/-- Claim C4: the Chart Selector is total and deterministic — every
(intent, row count, numeric column count) triple yields exactly one
chart type, drawn from {bar, line, pie, table}. -/
theorem chart_selector_total (i : QueryIntent) (rowCount numericCols : Nat) :
    selectChart i rowCount numericCols ∈
      ([ChartType.bar, ChartType.line, ChartType.pie, ChartType.table] :
        List ChartType) ∧
    ∃! c : ChartType, selectChart i rowCount numericCols = c := by
  constructor
  · cases h : selectChart i rowCount numericCols <;> simp
  · exact ⟨selectChart i rowCount numericCols, rfl, fun c hc => hc.symm⟩

/-- Claim C5: the Query Compiler is pure and deterministic — its output
depends only on the `(QueryIntent, Dataset)` pair, so two invocations on
that pair produce identical `QueryPlan`s regardless of any raw-file
state. -/
theorem compile_pure (i : QueryIntent) (d : Dataset) (r r' : RawGrid) :
    compile i d r = compile i d r' := rfl

/-- Claim C6: the statistics `min`, `max`, `mean` of a `ColumnProfile`
are present exactly when the inferred type is numeric (integer or
float) or datetime, and are `none` exactly when it is string, boolean
or categorical. -/
theorem stats_present_iff_numeric (name : String) (cells : List Cell) :
    ((profileColumn name cells).min.isSome = true ↔
      ((profileColumn name cells).inferred_type = .integer ∨
       (profileColumn name cells).inferred_type = .float ∨
       (profileColumn name cells).inferred_type = .datetime)) ∧
    ((profileColumn name cells).max.isSome = true ↔
      ((profileColumn name cells).inferred_type = .integer ∨
       (profileColumn name cells).inferred_type = .float ∨
       (profileColumn name cells).inferred_type = .datetime)) ∧
    ((profileColumn name cells).mean.isSome = true ↔
      ((profileColumn name cells).inferred_type = .integer ∨
       (profileColumn name cells).inferred_type = .float ∨
       (profileColumn name cells).inferred_type = .datetime)) ∧
    ((profileColumn name cells).min = none ↔
      ((profileColumn name cells).inferred_type = .string ∨
       (profileColumn name cells).inferred_type = .boolean ∨
       (profileColumn name cells).inferred_type = .categorical)) ∧
    ((profileColumn name cells).max = none ↔
      ((profileColumn name cells).inferred_type = .string ∨
       (profileColumn name cells).inferred_type = .boolean ∨
       (profileColumn name cells).inferred_type = .categorical)) ∧
    ((profileColumn name cells).mean = none ↔
      ((profileColumn name cells).inferred_type = .string ∨
       (profileColumn name cells).inferred_type = .boolean ∨
       (profileColumn name cells).inferred_type = .categorical)) := by
  simp only [profileColumn]
  cases h : inferType cells <;> simp [hasStats, h]

/-- Claim C7: deleting a File cascades — afterwards no Dataset derived
from that File, no Query owned by it and no row for the File itself
remain, while the Datasets and Queries of every other File are kept
unchanged and in their original order. -/
theorem cascade_delete (s : Store) (fid : Nat) :
    (∀ f : FileRec, f ∈ (deleteFile fid s).files ↔
      (f ∈ s.files ∧ f.id ≠ fid)) ∧
    (∀ d : DatasetRec, d ∈ (deleteFile fid s).datasets ↔
      (d ∈ s.datasets ∧ d.file_id ≠ fid)) ∧
    (∀ q : Query, q ∈ (deleteFile fid s).queries ↔
      (q ∈ s.queries ∧ q.file_id ≠ fid)) ∧
    List.Sublist (deleteFile fid s).datasets s.datasets ∧
    List.Sublist (deleteFile fid s).queries s.queries := by
  refine ⟨?_, ?_, ?_, ?_, ?_⟩
  · intro f; simp [deleteFile, List.mem_filter]
  · intro d; simp [deleteFile, List.mem_filter]
  · intro q; simp [deleteFile, List.mem_filter]
  · exact List.filter_sublist _
  · exact List.filter_sublist _

/-- Claim C8: `truncateText` returns the text unchanged when its length
is at most `maxLength`, and otherwise exactly the first `maxLength`
characters followed by "...", of total length `maxLength + 3`, which is
strictly greater than `maxLength`. -/
theorem truncateText_spec (text : List Char) (maxLength : Nat) :
    (text.length ≤ maxLength → truncateText text maxLength = text) ∧
    (maxLength < text.length →
      truncateText text maxLength = text.take maxLength ++ ['.', '.', '.'] ∧
      (truncateText text maxLength).length = maxLength + 3 ∧
      maxLength < (truncateText text maxLength).length) := by
  constructor
  · intro h; simp [truncateText, h]
  · intro h
    have hn : ¬ text.length ≤ maxLength := not_le.mpr h
    refine ⟨by simp [truncateText, hn], ?_, ?_⟩
    · simp [truncateText, hn, List.length_take, Nat.min_eq_left (le_of_lt h)]
    · simp only [truncateText, hn, if_false, List.length_append,
        List.length_take, List.length_cons, List.length_nil]
      omega

/-- Witness for claim C8 at concrete inputs: a 2-character text under
limit 4 passes through unchanged, and a 4-character text under limit 2
gains length 2 + 3. -/
theorem truncateText_spec_witness :
    truncateText ['a', 'b'] 4 = ['a', 'b'] ∧
    (truncateText ['a', 'b', 'c', 'd'] 2).length = 2 + 3 :=
  ⟨(truncateText_spec ['a', 'b'] 4).1 (by decide),
   ((truncateText_spec ['a', 'b', 'c', 'd'] 2).2 (by decide)).2.1⟩

/-- Claim C9: `formatFileSize` returns "0 Bytes" for 0 bytes, and for
1 ≤ bytes < 1024^4 the computed unit index, the floor of the base-1024
logarithm, is a valid index into the four-element unit array, so the
result is the scaled number followed by one of the four units. -/
theorem formatFileSize_spec :
    formatFileSize 0 = "0 Bytes" ∧
    ∀ bytes : Nat, 1 ≤ bytes → bytes < 1024 ^ 4 →
      Nat.log 1024 bytes < sizes.length ∧
      ∃ u ∈ sizes, formatFileSize bytes =
        toString (bytes / 1024 ^ Nat.log 1024 bytes) ++ " " ++ u := by
  refine ⟨rfl, ?_⟩
  intro bytes h1 h4
  have hb : bytes ≠ 0 := by omega
  have hlog : Nat.log 1024 bytes < 4 := Nat.log_lt_of_lt_pow hb h4
  have hlen : sizes.length = 4 := rfl
  refine ⟨by omega, sizes.getD (Nat.log 1024 bytes) "", ?_, ?_⟩
  · exact getD_mem_of_lt sizes _ "" (by omega)
  · simp [formatFileSize, hb]

/-- Witness for claim C9 at the concrete input 2048 bytes (which lies in
the KB range). -/
theorem formatFileSize_spec_witness :
    Nat.log 1024 2048 < sizes.length ∧
    ∃ u ∈ sizes, formatFileSize 2048 =
      toString (2048 / 1024 ^ Nat.log 1024 2048) ++ " " ++ u :=
  formatFileSize_spec.2 2048 (by decide) (by decide)

/-- Claim C10: confirming a successful delete in QueryHistory
(respectively FileList) leaves the displayed list equal to the previous
list with exactly the entries carrying the deleted id removed, keeping
every other entry in its original relative order, and a failed delete
request leaves the list unchanged. -/
theorem handleDelete_frame (queries : List QueryResponse)
    (files : List FileInfo) (qd : QueryResponse) (fd : FileInfo) :
    (∀ q, q ∈ handleDeleteConfirmQueries true queries (some qd) ↔
      (q ∈ queries ∧ q.id ≠ qd.id)) ∧
    List.Sublist (handleDeleteConfirmQueries true queries (some qd)) queries ∧
    handleDeleteConfirmQueries false queries (some qd) = queries ∧
    (∀ f, f ∈ handleDeleteConfirmFiles true files (some fd) ↔
      (f ∈ files ∧ f.id ≠ fd.id)) ∧
    List.Sublist (handleDeleteConfirmFiles true files (some fd)) files ∧
    handleDeleteConfirmFiles false files (some fd) = files := by
  refine ⟨?_, ?_, rfl, ?_, ?_, rfl⟩
  · intro q; simp [handleDeleteConfirmQueries, List.mem_filter]
  · exact List.filter_sublist _
  · intro f; simp [handleDeleteConfirmFiles, List.mem_filter]
  · exact List.filter_sublist _

end ExcelPlatform
